import Mathlib

/-!
Verification of the spill-formula subsystem of an Excel MCP server repository.

The repository consists of a test harness (tests/test_spill_formula.py), whose
function apply_spill_formula performs sheet lookup, cell-reference validation,
range-order validation and then delegates formula binding and serialization to
the external openpyxl-spill library, and a demo script
(sample/create_with_openpyxl.py). The parts that live in the external library
(the coordinate resolver used through coordinate_to_tuple, the compatibility
rewriter and the spill serializer invoked through set_dynamic_array_formula)
are modelled here from the specification; the control flow of
apply_spill_formula itself is embedded directly from the source.
-/

namespace ExcelSpill

/-- Quote character, double quote, used as the string-literal delimiter in formulas. -/
def quoteChar : Char := Char.ofNat 34

/-- Opening parenthesis character, which marks a function-call position. -/
def lparenChar : Char := Char.ofNat 40

/-- Equals-sign character, the required first character of a formula. -/
def eqChar : Char := Char.ofNat 61

/-- Tokens of a formula, as produced by the string-literal-aware scanner of the
Formula Rewriter: a quoted string literal, an identifier immediately followed
by an opening parenthesis (a function-call position), a bare identifier not
followed by an opening parenthesis, or any other single character. -/
inductive Tok where
  | lit (s : List Char)
  | call (ident : List Char)
  | word (s : List Char)
  | other (c : Char)
deriving DecidableEq

/-- Scan the remainder of a string literal after its opening quote. Returns the
scanned characters (including the closing quote, with the doubled-quote escape
kept intact) and the unscanned rest of the input. -/
def scanLit : List Char → List Char × List Char
  | [] => ([], [])
  | c :: cs =>
    if c = quoteChar then
      match cs with
      | c2 :: cs2 =>
        if c2 = quoteChar then
          (c :: c2 :: (scanLit cs2).1, (scanLit cs2).2)
        else ([c], cs)
      | [] => ([c], [])
    else (c :: (scanLit cs).1, (scanLit cs).2)

/-- Fuelled tokenizer for formula text. Modelled from the spec: the Formula
Rewriter (part of the external set_dynamic_array_formula implementation, not
under src/) tokenizes a formula into string literals, identifiers immediately
followed by an opening parenthesis, and all other characters. The fuel is
always instantiated with the length of the input, which suffices because every
step consumes at least one character. -/
def tokenizeFuel : Nat → List Char → List Tok
  | _, [] => []
  | 0, _ :: _ => []
  | fuel + 1, c :: cs =>
    if c = quoteChar then
      Tok.lit (c :: (scanLit cs).1) :: tokenizeFuel fuel (scanLit cs).2
    else if c.isAlpha then
      match cs.dropWhile Char.isAlpha with
      | d :: rest =>
        if d = lparenChar then
          Tok.call (c :: cs.takeWhile Char.isAlpha) :: tokenizeFuel fuel rest
        else
          Tok.word (c :: cs.takeWhile Char.isAlpha) :: tokenizeFuel fuel (d :: rest)
      | [] => [Tok.word (c :: cs.takeWhile Char.isAlpha)]
    else
      Tok.other c :: tokenizeFuel fuel cs

/-- Tokenize a list of characters, with enough fuel to consume all of it. -/
def tokenize (l : List Char) : List Tok := tokenizeFuel l.length l

/-- Print a token back to the characters it was scanned from. -/
def Tok.render : Tok → List Char
  | Tok.lit s => s
  | Tok.call ident => ident ++ [lparenChar]
  | Tok.word s => s
  | Tok.other c => [c]

/-- Concatenation of the rendered tokens. -/
def renderAll (ts : List Tok) : List Char := (ts.map Tok.render).flatten

/-- Modelled from the spec: the Function Compatibility Table, a static mapping
from dynamic-array function name to the escaping required for older readers.
The table itself lives in the external openpyxl-spill library, not under src/;
the entries follow the functions exercised by the repository, with SORT mapped
to the single prefix given as the example in the spec and FILTER placed in the
sheet-scoped compound-prefix subset. -/
def FUNCTION_PREFIXES : List (String × String) :=
  [("SORT", "_xlfn."),
   ("UNIQUE", "_xlfn."),
   ("SEQUENCE", "_xlfn."),
   ("SORTBY", "_xlfn."),
   ("RANDARRAY", "_xlfn."),
   ("FILTER", "_xlfn._xlws.")]

/-- Uppercase a string character by character. -/
def upper (s : String) : String := String.mk (s.data.map Char.toUpper)

/-- Look up the required escaping for a function name, case-insensitively. -/
def prefixOf (name : String) : Option String :=
  (FUNCTION_PREFIXES.find? (fun p => p.1 == upper name)).map (fun p => p.2)

/-- Rewrite one token: a function-call identifier found in the Compatibility
Table is replaced by prefix plus identifier; every other token is unchanged. -/
def Tok.rewriteTok : Tok → List Char
  | Tok.call ident =>
    match prefixOf (String.mk ident) with
    | some p => p.data ++ ident ++ [lparenChar]
    | none => ident ++ [lparenChar]
  | t => t.render

/-- Modelled from the spec: the Formula Rewriter, which rewrites the
function-call identifiers of a formula according to the Compatibility Table
without touching string literals or any other characters. -/
def rewrite (f : String) : String :=
  String.mk ((tokenize f.data).map Tok.rewriteTok).flatten

/-- Function-call identifiers of a formula, in scan order. -/
def callIdents (f : String) : List String :=
  (tokenize f.data).filterMap fun t =>
    match t with
    | Tok.call ident => some (String.mk ident)
    | _ => none

example : rewrite "=SORT(B2:B8,,-1)" = "=_xlfn.SORT(B2:B8,,-1)" := by decide
example : rewrite "=TODAY()+A1" = "=TODAY()+A1" := by decide
example : callIdents "=SORT(UNIQUE(A1:A10))" = ["SORT", "UNIQUE"] := by decide

/-- Cell coordinate, one-indexed in both components, as produced by the
coordinate resolver from a textual reference such as F3. -/
structure Coordinate where
  row : Nat
  col : Nat
deriving DecidableEq

/-- Bijective base-26 value of the column letters, with A mapped to 1,
after per-character uppercasing. -/
def lettersVal (ls : List Char) : Nat :=
  ls.foldl (fun n c => n * 26 + (c.toUpper.toNat - 64)) 0

/-- Base-10 value of the row digits. -/
def digitsVal (ds : List Char) : Nat :=
  ds.foldl (fun n c => n * 10 + (c.toNat - 48)) 0

/-- Modelled from the spec: the Coordinate Resolver. The implementation used
by apply_spill_formula is the external coordinate_to_tuple of openpyxl, not
under src/; the grammar here follows the spec, one or more letters immediately
followed by one or more digits, nothing else, with case normalization applied
to the column letters when computing the column index (normalization does not
change which strings match the letters-then-digits grammar) and a zero row
rejected. -/
def parseReference (s : String) : Option Coordinate :=
  if (s.data.takeWhile Char.isAlpha).isEmpty then none
  else if (s.data.dropWhile Char.isAlpha).isEmpty then none
  else if (s.data.dropWhile Char.isAlpha).all Char.isDigit then
    if digitsVal (s.data.dropWhile Char.isAlpha) = 0 then none
    else some (Coordinate.mk (digitsVal (s.data.dropWhile Char.isAlpha))
      (lettersVal (s.data.takeWhile Char.isAlpha)))
  else none

/-- Rectangular cell range delimited by its top-left and bottom-right corners. -/
structure CellRange where
  start : Coordinate
  endCoord : Coordinate
deriving DecidableEq

/-- Error kinds of the spill-formula subsystem. -/
inductive SpillError where
  | sheetNotFound (name : String)
  | invalidReference
  | invalidRange
  | emptyFormula
deriving DecidableEq

/-- Range constructor. Embeds the range-order validation of
apply_spill_formula, source lines 86-87 of tests/test_spill_formula.py: the
range is rejected when the start row exceeds the end row or the start column
exceeds the end column, and is never silently swapped. -/
def make_range (a b : Coordinate) : Except SpillError CellRange :=
  if a.row > b.row ∨ a.col > b.col then Except.error SpillError.invalidRange
  else Except.ok (CellRange.mk a b)

/-- Content of one cell of a sheet. -/
inductive CellContent where
  | empty
  | value (v : String)
  | arrayAnchor (formulaText : String) (rangeText : String)
  | spillMember (anchor : Coordinate)
deriving DecidableEq

/-- Leading-character test for the equals sign. -/
def startsWithEq (l : List Char) : Bool :=
  match l.head? with
  | some c => c == eqChar
  | none => false

/-- Whitespace trimming on both ends of a character list. -/
def trimChars (l : List Char) : List Char :=
  ((l.dropWhile Char.isWhitespace).reverse.dropWhile Char.isWhitespace).reverse

/-- Modelled from the spec: the Spill Binding step, part of the external
set_dynamic_array_formula implementation, not under src/. It fails with
EmptyFormula when the formula, after trimming whitespace, does not begin with
the equals sign, and otherwise hands the rewritten formula to the serializer. -/
def bindFormula (f : String) : Except SpillError String :=
  if startsWithEq (trimChars f.data) then Except.ok (rewrite f)
  else Except.error SpillError.emptyFormula

/-- Sheet contents, as a total assignment of content to coordinates. -/
abbrev Sheet := Coordinate → CellContent

/-- Workbook: association list from sheet name to sheet contents. -/
abbrev Workbook := List (String × Sheet)

/-- Find a sheet by name. -/
def lookupSheet (wb : Workbook) (name : String) : Option Sheet :=
  (wb.find? (fun p => p.1 == name)).map (fun p => p.2)

/-- Replace the contents of the named sheet. -/
def updateSheet (wb : Workbook) (name : String) (sh : Sheet) : Workbook :=
  wb.map (fun p => if p.1 == name then (p.1, sh) else p)

/-- Membership of a coordinate in the rectangle spanned by two corners. -/
def inRect (a b c : Coordinate) : Prop :=
  a.row ≤ c.row ∧ c.row ≤ b.row ∧ a.col ≤ c.col ∧ c.col ≤ b.col

instance (a b c : Coordinate) : Decidable (inRect a b c) := by
  unfold inRect
  infer_instance

/-- Modelled from the spec: the Serializer, part of the external
set_dynamic_array_formula implementation, not under src/. The anchor cell
(top-left of the range) receives the rewritten formula text together with the
textual range extent; every other cell of the rectangle receives a
spill-member marker referencing the anchor and carries no formula text of its
own. -/
def writeSpill (sh : Sheet) (r : CellRange) (formulaText rangeText : String) : Sheet :=
  fun c =>
    if c = r.start then CellContent.arrayAnchor formulaText rangeText
    else if inRect r.start r.endCoord c then CellContent.spillMember r.start
    else sh c

/-- Whether a cell content carries formula text of its own. -/
def hasFormulaText : CellContent → Bool
  | CellContent.arrayAnchor _ _ => true
  | CellContent.value v => startsWithEq v.data
  | _ => false

/-- Content of one cell of a named sheet of a workbook. -/
def getCell (wb : Workbook) (name : String) (c : Coordinate) : Option CellContent :=
  (lookupSheet wb name).map (fun sh => sh c)

/-- Core of apply_spill_formula, embedded from tests/test_spill_formula.py
lines 76-107: sheet lookup first, then cell-reference validation, then
range-order validation, then (through the external set_dynamic_array_formula,
modelled from the spec by bindFormula and writeSpill) formula binding and
serialization, and finally the confirmation message built from the original
formula text and the original reference strings. -/
def applyCore (wb : Workbook) (sheetName startCell endCell formula : String) :
    Except SpillError (Workbook × String) :=
  match lookupSheet wb sheetName with
  | none => Except.error (SpillError.sheetNotFound sheetName)
  | some sheet =>
    match parseReference startCell, parseReference endCell with
    | some a, some b =>
      match make_range a b with
      | Except.error e => Except.error e
      | Except.ok r =>
        match bindFormula formula with
        | Except.error e => Except.error e
        | Except.ok rewritten =>
          Except.ok
            (updateSheet wb sheetName
              (writeSpill sheet r rewritten (startCell ++ ":" ++ endCell)),
             "Applied dynamic array formula \x27" ++ formula ++
               "\x27 to range " ++ (startCell ++ ":" ++ endCell))
    | _, _ => Except.error SpillError.invalidReference

/-- Human-readable error strings, as returned by apply_spill_formula in
tests/test_spill_formula.py (the EmptyFormula wording is modelled from the
spec, which places that failure in the external binding step). -/
def errorMessage : SpillError → String
  | SpillError.sheetNotFound n => "Error: Sheet \x27" ++ n ++ "\x27 not found"
  | SpillError.invalidReference => "Error: Invalid cell reference"
  | SpillError.invalidRange =>
      "Error: Invalid range specification: start_cell must be before end_cell"
  | SpillError.emptyFormula => "Error: Empty formula: formula must start with \x3d"

/-- File system: mapping from path to stored workbook. -/
abbrev FileSys := String → Option Workbook

/-- Store a workbook at a path. -/
def saveWb (fs : FileSys) (path : String) (wb : Workbook) : FileSys :=
  fun p => if p = path then some wb else fs p

/-- Public entry point, embedded from apply_spill_formula in
tests/test_spill_formula.py: load the workbook from the file, run the core,
and save back only when the core succeeds; every failure is reported as a
returned message string and leaves the stored file untouched. -/
def apply_spill_formula (fs : FileSys)
    (filepath sheetName startCell endCell formula : String) : FileSys × String :=
  match fs filepath with
  | none => (fs, "Error applying spill formula: workbook file not found")
  | some wb =>
    match applyCore wb sheetName startCell endCell formula with
    | Except.error err => (fs, errorMessage err)
    | Except.ok (wb2, msg) => (saveWb fs filepath wb2, msg)

/-- Sheet with no content. -/
def sheetEmpty : Sheet := fun _ => CellContent.empty

/-- Demo workbook with the single default sheet, as created by the test
fixture before data is written. -/
def wbDemo : Workbook := [("Sheet", sheetEmpty)]

example : applyCore wbDemo "Sheet" "D1" "D10" "=UNIQUE(A1:A10)" =
    Except.ok
      (updateSheet wbDemo "Sheet"
        (writeSpill sheetEmpty (CellRange.mk (Coordinate.mk 1 4) (Coordinate.mk 10 4))
          (rewrite "=UNIQUE(A1:A10)") ("D1" ++ ":" ++ "D10")),
       "Applied dynamic array formula \x27" ++ "=UNIQUE(A1:A10)" ++
         "\x27 to range " ++ ("D1" ++ ":" ++ "D10")) := rfl

example : applyCore wbDemo "InvalidSheet" "A1" "A5" "=UNIQUE(A1:A10)" =
    Except.error (SpillError.sheetNotFound "InvalidSheet") := rfl

example : applyCore wbDemo "Sheet" "D5" "D1" "=UNIQUE(A1:A10)" =
    Except.error SpillError.invalidRange := rfl

example : applyCore wbDemo "Sheet" "INVALID" "A5" "=UNIQUE(A1:A10)" =
    Except.error SpillError.invalidReference := rfl

example : applyCore wbDemo "Sheet" "D1" "D10" "hello" =
    Except.error SpillError.emptyFormula := rfl

example : parseReference "D1" = some (Coordinate.mk 1 4) := by decide
example : parseReference "AA10" = some (Coordinate.mk 10 27) := by decide
example : parseReference "INVALID" = none := by decide
example : parseReference "A0" = none := by decide

/-- Reconstructing the scanned part of a string literal and its unscanned rest
gives back the input. -/
theorem scanLit_append (l : List Char) : (scanLit l).1 ++ (scanLit l).2 = l := by
  induction l using scanLit.induct with
  | case1 => rfl
  | case2 cs2 ih => simp [scanLit, ih]
  | case3 c2 cs2 h => simp [scanLit, h]
  | case4 => rfl
  | case5 c cs h ih =>
    rw [scanLit.eq_def]
    simp [h, ih]

/-- Scanning a string literal never lengthens the unscanned rest. -/
theorem scanLit_snd_length (l : List Char) : (scanLit l).2.length ≤ l.length := by
  induction l using scanLit.induct with
  | case1 => simp [scanLit]
  | case2 cs2 ih =>
    simp [scanLit]
    omega
  | case3 c2 cs2 h => simp [scanLit, h]
  | case4 => simp [scanLit]
  | case5 c cs h ih =>
    rw [scanLit.eq_def]
    simp [h]
    omega

/-- Dropping a prefix never lengthens a list. -/
theorem dropWhile_length_le (p : Char → Bool) :
    ∀ l : List Char, (l.dropWhile p).length ≤ l.length := by
  intro l
  induction l with
  | nil => simp
  | cons c cs ih =>
    by_cases hc : p c
    · simp only [List.dropWhile_cons_of_pos hc, List.length_cons]
      omega
    · simp [List.dropWhile_cons_of_neg hc]

/-- Rendering a token list starting with a given token. -/
theorem renderAll_cons (t : Tok) (ts : List Tok) :
    renderAll (t :: ts) = t.render ++ renderAll ts := by
  simp [renderAll]

/-- Rendering the tokens produced with sufficient fuel gives back the input. -/
theorem renderAll_tokenizeFuel (fuel : Nat) (l : List Char) :
    l.length ≤ fuel → renderAll (tokenizeFuel fuel l) = l := by
  induction fuel, l using tokenizeFuel.induct with
  | case1 t =>
    intro _
    rw [tokenizeFuel.eq_def]
    simp [renderAll]
  | case2 c cs =>
    intro hl
    simp at hl
  | case3 fuel cs ih =>
    intro hl
    simp only [List.length_cons] at hl
    have hlen : (scanLit cs).2.length ≤ fuel :=
      le_trans (scanLit_snd_length cs) (by omega)
    rw [tokenizeFuel.eq_def]
    simp [renderAll_cons, Tok.render, ih hlen, scanLit_append cs]
  | case4 fuel c cs hq ha rest hx ih =>
    intro hl
    simp only [List.length_cons] at hl
    have hdl : (lparenChar :: rest).length ≤ cs.length := hx ▸ dropWhile_length_le _ cs
    simp only [List.length_cons] at hdl
    have ihh := ih (by omega)
    have hcat := List.takeWhile_append_dropWhile Char.isAlpha cs
    rw [hx] at hcat
    rw [tokenizeFuel.eq_def]
    simp [hq, ha, hx, renderAll_cons, Tok.render, ihh, hcat]
  | case5 fuel c cs hq ha d rest hx hp ih =>
    intro hl
    simp only [List.length_cons] at hl
    have hdl : (d :: rest).length ≤ cs.length := hx ▸ dropWhile_length_le _ cs
    simp only [List.length_cons] at hdl
    have ihh := ih (by simp only [List.length_cons]; omega)
    have hcat := List.takeWhile_append_dropWhile Char.isAlpha cs
    rw [hx] at hcat
    rw [tokenizeFuel.eq_def]
    simp [hq, ha, hx, hp, renderAll_cons, Tok.render, ihh, hcat]
  | case6 fuel c cs hq ha hx =>
    intro hl
    have hcat := List.takeWhile_append_dropWhile Char.isAlpha cs
    rw [hx, List.append_nil] at hcat
    rw [tokenizeFuel.eq_def]
    simp [hq, ha, hx, renderAll_cons, renderAll, Tok.render, hcat]
  | case7 fuel c cs hq ha ih =>
    intro hl
    simp only [List.length_cons] at hl
    have ihh := ih (by omega)
    rw [tokenizeFuel.eq_def]
    simp [hq, ha, renderAll_cons, Tok.render, ihh]

/-- Rendering the tokens of a string gives back the string. -/
theorem renderAll_tokenize (l : List Char) : renderAll (tokenize l) = l :=
  renderAll_tokenizeFuel l.length l le_rfl

/-- When no call identifier of a token list is in the Compatibility Table,
rewriting each token is the same as rendering it. -/
theorem map_rewriteTok_eq_render (ts : List Tok)
    (h : ∀ ident, Tok.call ident ∈ ts → prefixOf (String.mk ident) = none) :
    ts.map Tok.rewriteTok = ts.map Tok.render := by
  induction ts with
  | nil => rfl
  | cons t ts ih =>
    have hts : ∀ ident, Tok.call ident ∈ ts → prefixOf (String.mk ident) = none :=
      fun ident hm => h ident (List.mem_cons_of_mem t hm)
    simp only [List.map_cons, ih hts]
    match t with
    | Tok.call ident =>
      have := h ident (List.mem_cons_self _ _)
      simp [Tok.rewriteTok, this, Tok.render]
    | Tok.lit s => rfl
    | Tok.word s => rfl
    | Tok.other c => rfl

/-- A string is recovered from its own character list. -/
theorem string_mk_data (s : String) : String.mk s.data = s := rfl

/-- Lookup at a matching head entry returns its sheet. -/
theorem lookupSheet_cons_hit (m : String) (t : Sheet) (rest : Workbook) (n : String)
    (hm : (m == n) = true) : lookupSheet ((m, t) :: rest) n = some t := by
  unfold lookupSheet
  rw [List.find?_cons_of_pos rest
    (show ((fun q : String × Sheet => q.1 == n) (m, t)) = true from hm)]
  rfl

/-- Lookup skips a non-matching head entry. -/
theorem lookupSheet_cons_miss (m : String) (t : Sheet) (rest : Workbook) (n : String)
    (hm : (m == n) = false) : lookupSheet ((m, t) :: rest) n = lookupSheet rest n := by
  unfold lookupSheet
  rw [List.find?_cons_of_neg rest
    (show ¬((fun q : String × Sheet => q.1 == n) (m, t) = true) from by simp [hm])]

/-- Update distributes over a cons cell. -/
theorem updateSheet_cons (m : String) (t : Sheet) (rest : Workbook) (n : String)
    (sh : Sheet) :
    updateSheet ((m, t) :: rest) n sh
      = (if (m == n) = true then (m, sh) else (m, t)) :: updateSheet rest n sh := rfl

/-- Updating a sheet that is present makes lookup return the new contents. -/
theorem lookupSheet_updateSheet (wb : Workbook) (n : String) (sh0 sh : Sheet)
    (h : lookupSheet wb n = some sh0) :
    lookupSheet (updateSheet wb n sh) n = some sh := by
  induction wb with
  | nil => exact Option.noConfusion h
  | cons p rest ih =>
    rcases p with ⟨m, t⟩
    by_cases hn : (m == n) = true
    · rw [updateSheet_cons, if_pos hn, lookupSheet_cons_hit _ _ _ _ hn]
    · have hn2 : (m == n) = false := by
        cases hmn : (m == n) with
        | true => exact absurd hmn hn
        | false => rfl
      rw [updateSheet_cons, if_neg (by simp [hn2]), lookupSheet_cons_miss _ _ _ _ hn2]
      rw [lookupSheet_cons_miss _ _ _ _ hn2] at h
      exact ih h

/-- Inversion of a successful applyCore run: the sheet was found, both
references parsed, the range was well ordered, the formula bound, and the
result is the serialized workbook together with the confirmation message. -/
theorem applyCore_ok_inv (wb : Workbook) (n s e f : String) (wb2 : Workbook)
    (msg : String) (h : applyCore wb n s e f = Except.ok (wb2, msg)) :
    ∃ sheet a b rw,
      lookupSheet wb n = some sheet ∧
      parseReference s = some a ∧
      parseReference e = some b ∧
      ¬(a.row > b.row ∨ a.col > b.col) ∧
      bindFormula f = Except.ok rw ∧
      wb2 = updateSheet wb n
        (writeSpill sheet (CellRange.mk a b) rw (s ++ ":" ++ e)) ∧
      msg = "Applied dynamic array formula \x27" ++ f ++
        "\x27 to range " ++ (s ++ ":" ++ e) := by
  unfold applyCore at h
  split at h
  · exact Except.noConfusion h
  · rename_i sheet hs
    split at h
    · rename_i a b ha hb
      split at h
      · exact Except.noConfusion h
      · rename_i r hmr
        split at h
        · exact Except.noConfusion h
        · rename_i rw0 hbf
          have hcond : ¬(a.row > b.row ∨ a.col > b.col) ∧ r = CellRange.mk a b := by
            unfold make_range at hmr
            by_cases hc : a.row > b.row ∨ a.col > b.col
            · rw [if_pos hc] at hmr
              exact absurd hmr (by simp)
            · rw [if_neg hc] at hmr
              exact ⟨hc, (Except.ok.inj hmr).symm⟩
          rw [Except.ok.injEq, Prod.mk.injEq] at h
          refine ⟨sheet, a, b, rw0, hs, ha, hb, hcond.1, hbf, ?_, h.2.symm⟩
          rw [← h.1, hcond.2]
    · rename_i hno
      exact Except.noConfusion h

/-- Value of the row digits is what parseReference stores; a successfully
parsed reference satisfies the letters-then-digits grammar. -/
theorem parse_some_refGrammar (s : String) (c : Coordinate)
    (h : parseReference s = some c) :
    ∃ ls ds, s.data = ls ++ ds ∧ ls ≠ [] ∧ ds ≠ [] ∧
      (∀ x ∈ ls, Char.isAlpha x = true) ∧ (∀ x ∈ ds, Char.isDigit x = true) ∧
      digitsVal ds ≠ 0 := by
  unfold parseReference at h
  split_ifs at h with h1 h2 h3 h4
  refine ⟨s.data.takeWhile Char.isAlpha, s.data.dropWhile Char.isAlpha,
    (List.takeWhile_append_dropWhile _ _).symm, ?_, ?_, ?_, ?_, h4⟩
  · intro hnil
    rw [hnil] at h1
    exact h1 rfl
  · intro hnil
    rw [hnil] at h2
    exact h2 rfl
  · intro x hx
    exact List.mem_takeWhile_imp hx
  · intro x hx
    exact (List.all_eq_true.mp h3) x hx

/-- C2: for all coordinates a and b with a.row ≤ b.row and a.col ≤ b.col,
range construction from (a, b) succeeds, including the single-cell case
a = b, and range construction from (b, a) fails with InvalidRange whenever
a ≠ b; a mis-ordered start is rejected, never silently swapped. -/
theorem make_range_ordered_ok (a b : Coordinate) (h1 : a.row ≤ b.row)
    (h2 : a.col ≤ b.col) :
    make_range a b = Except.ok (CellRange.mk a b) ∧
    (a ≠ b → make_range b a = Except.error SpillError.invalidRange) := by
  constructor
  · unfold make_range
    rw [if_neg (by omega)]
  · intro hne
    have hd : b.row > a.row ∨ b.col > a.col := by
      by_contra hcon
      push_neg at hcon
      apply hne
      have hr : a.row = b.row := le_antisymm h1 hcon.1
      have hcl : a.col = b.col := le_antisymm h2 hcon.2
      obtain ⟨ar, ac⟩ := a
      obtain ⟨br, bc⟩ := b
      simp_all
    unfold make_range
    rw [if_pos hd]

/-- Witness for C2 at a = (1,1), b = (2,3). -/
theorem make_range_ordered_ok_witness :
    make_range (Coordinate.mk 1 1) (Coordinate.mk 2 3)
      = Except.ok (CellRange.mk (Coordinate.mk 1 1) (Coordinate.mk 2 3)) ∧
    make_range (Coordinate.mk 2 3) (Coordinate.mk 1 1)
      = Except.error SpillError.invalidRange :=
  ⟨(make_range_ordered_ok (Coordinate.mk 1 1) (Coordinate.mk 2 3)
      (by decide) (by decide)).1,
   (make_range_ordered_ok (Coordinate.mk 1 1) (Coordinate.mk 2 3)
      (by decide) (by decide)).2 (by decide)⟩

/-- C4: every reference string that does not decompose as one or more letters
immediately followed by one or more digits with nothing else, or whose row
digits denote zero, or that is empty, is rejected by the coordinate resolver,
and apply reports it as an invalid-cell-reference error on an existing sheet
rather than succeeding. -/
theorem invalid_reference_rejected (s : String)
    (h : ¬ ∃ ls ds, s.data = ls ++ ds ∧ ls ≠ [] ∧ ds ≠ [] ∧
      (∀ x ∈ ls, Char.isAlpha x = true) ∧ (∀ x ∈ ds, Char.isDigit x = true) ∧
      digitsVal ds ≠ 0) :
    parseReference s = none ∧
    ∀ (wb : Workbook) (n e f : String) (sheet : Sheet),
      lookupSheet wb n = some sheet →
      applyCore wb n s e f = Except.error SpillError.invalidReference := by
  have hp : parseReference s = none := by
    cases hq : parseReference s with
    | none => rfl
    | some c => exact absurd (parse_some_refGrammar s c hq) h
  refine ⟨hp, ?_⟩
  intro wb n e f sheet hs
  unfold applyCore
  rw [hs, hp]

/-- Witness for C4 at the empty string, on the demo workbook. -/
theorem invalid_reference_rejected_witness :
    parseReference "" = none ∧
    applyCore wbDemo "Sheet" "" "A5" "=UNIQUE(A1:A10)"
      = Except.error SpillError.invalidReference := by
  have hemp : ¬ ∃ ls ds, ("" : String).data = ls ++ ds ∧ ls ≠ [] ∧ ds ≠ [] ∧
      (∀ x ∈ ls, Char.isAlpha x = true) ∧ (∀ x ∈ ds, Char.isDigit x = true) ∧
      digitsVal ds ≠ 0 := by
    rintro ⟨ls, ds, habs, hls, -⟩
    exact hls (List.append_eq_nil.mp habs.symm).1
  exact ⟨(invalid_reference_rejected "" hemp).1,
    (invalid_reference_rejected "" hemp).2 wbDemo "Sheet" "A5" "=UNIQUE(A1:A10)"
      sheetEmpty rfl⟩

/-- C5: rewriting the formula for SORT replaces the function-call token by
prefix plus identifier per the Compatibility Table while the argument list is
byte-for-byte untouched. -/
theorem rewrite_sort_formula :
    rewrite "=SORT(B2:B8,,-1)" = "=" ++ "_xlfn." ++ "SORT" ++ "(" ++ "B2:B8,,-1)" ∧
    prefixOf "SORT" = some "_xlfn." := by decide

/-- C6: a formula whose function-call identifiers are all absent from the
Compatibility Table is left byte-for-byte unchanged by the rewriter. -/
theorem rewrite_id_of_unknown_functions (f : String)
    (h : ∀ name ∈ callIdents f, prefixOf name = none) :
    rewrite f = f := by
  have hts : ∀ ident, Tok.call ident ∈ tokenize f.data →
      prefixOf (String.mk ident) = none := by
    intro ident hm
    apply h
    unfold callIdents
    exact List.mem_filterMap.mpr ⟨Tok.call ident, hm, rfl⟩
  unfold rewrite
  rw [map_rewriteTok_eq_render (tokenize f.data) hts]
  have hr := renderAll_tokenize f.data
  unfold renderAll at hr
  rw [hr]

/-- Witness for C6 at a formula calling a function outside the table. -/
theorem rewrite_id_of_unknown_functions_witness :
    (∀ name ∈ callIdents "=NOTINTABLE(A1:A10)", prefixOf name = none) ∧
    rewrite "=NOTINTABLE(A1:A10)" = "=NOTINTABLE(A1:A10)" :=
  ⟨by decide, rewrite_id_of_unknown_functions "=NOTINTABLE(A1:A10)" (by decide)⟩

/-- C3: a formula that, after trimming whitespace, does not begin with the
equals sign (including the empty string) is rejected by the binding step with
EmptyFormula, and no call with such a formula ever succeeds, so the formula is
never written into a cell. -/
theorem empty_formula_rejected (f : String)
    (h : startsWithEq (trimChars f.data) = false) :
    bindFormula f = Except.error SpillError.emptyFormula ∧
    ∀ (wb : Workbook) (n s e : String) (out : Workbook × String),
      applyCore wb n s e f ≠ Except.ok out := by
  have hb : bindFormula f = Except.error SpillError.emptyFormula := by
    unfold bindFormula
    rw [h]
    rfl
  refine ⟨hb, ?_⟩
  intro wb n s e out hok
  obtain ⟨sheet, a, b, rw0, -, -, -, -, hbf, -, -⟩ :=
    applyCore_ok_inv wb n s e f out.1 out.2 (by rw [Prod.mk.eta]; exact hok)
  rw [hb] at hbf
  exact Except.noConfusion hbf

/-- Witness for C3 at the formula text abc. -/
theorem empty_formula_rejected_witness :
    bindFormula "abc" = Except.error SpillError.emptyFormula ∧
    applyCore wbDemo "Sheet" "D1" "D10" "abc" ≠ Except.ok (wbDemo, "") :=
  ⟨(empty_formula_rejected "abc" (by decide)).1,
   (empty_formula_rejected "abc" (by decide)).2 wbDemo "Sheet" "D1" "D10" (wbDemo, "")⟩

/-- C1 counterexample: on an existing sheet with valid, ordered references,
the call with the formula text hello does not succeed with a confirmation; it
fails with EmptyFormula, refuting the claim for arbitrary formula strings. -/
theorem apply_any_formula_counterexample :
    applyCore wbDemo "Sheet" "D1" "D10" "hello"
      = Except.error SpillError.emptyFormula := rfl

/-- C1 (amended): with an existing sheet, grammatically valid start and end
references in correct order, and a formula string that after trimming begins
with the equals sign, the call succeeds and returns the confirmation string
built from the formula and the range text START:END. -/
theorem apply_success_confirmation (wb : Workbook) (n s e f : String)
    (sheet : Sheet) (a b : Coordinate)
    (hs : lookupSheet wb n = some sheet)
    (ha : parseReference s = some a) (hb : parseReference e = some b)
    (h1 : a.row ≤ b.row) (h2 : a.col ≤ b.col)
    (hf : startsWithEq (trimChars f.data) = true) :
    applyCore wb n s e f = Except.ok
      (updateSheet wb n
        (writeSpill sheet (CellRange.mk a b) (rewrite f) (s ++ ":" ++ e)),
       "Applied dynamic array formula \x27" ++ f ++
         "\x27 to range " ++ (s ++ ":" ++ e)) := by
  have hmr : make_range a b = Except.ok (CellRange.mk a b) := by
    unfold make_range
    rw [if_neg (by omega)]
  have hbf : bindFormula f = Except.ok (rewrite f) := by
    unfold bindFormula
    rw [if_pos hf]
  unfold applyCore
  simp only [hs, ha, hb, hmr, hbf]

/-- Witness for C1 at the spec instance D1:D10 with the UNIQUE formula on the
sheet named Sheet; the returned confirmation contains the formula text and the
range text D1:D10 verbatim. -/
theorem apply_success_confirmation_witness :
    applyCore wbDemo "Sheet" "D1" "D10" "=UNIQUE(A1:A10)" = Except.ok
      (updateSheet wbDemo "Sheet"
        (writeSpill sheetEmpty (CellRange.mk (Coordinate.mk 1 4) (Coordinate.mk 10 4))
          (rewrite "=UNIQUE(A1:A10)") ("D1" ++ ":" ++ "D10")),
       "Applied dynamic array formula \x27" ++ "=UNIQUE(A1:A10)" ++
         "\x27 to range " ++ ("D1" ++ ":" ++ "D10")) :=
  apply_success_confirmation wbDemo "Sheet" "D1" "D10" "=UNIQUE(A1:A10)"
    sheetEmpty (Coordinate.mk 1 4) (Coordinate.mk 10 4)
    rfl (by decide) (by decide) (by decide) (by decide) (by decide)

/-- C7: when the sheet name does not exist in the workbook the call fails with
SheetNotFound, and the error message names the missing sheet. -/
theorem sheet_not_found_reported (wb : Workbook) (n s e f : String)
    (h : lookupSheet wb n = none) :
    applyCore wb n s e f = Except.error (SpillError.sheetNotFound n) ∧
    ∃ pre post, errorMessage (SpillError.sheetNotFound n) = pre ++ n ++ post := by
  constructor
  · unfold applyCore
    rw [h]
  · exact ⟨"Error: Sheet \x27", "\x27 not found", rfl⟩

/-- Witness for C7 at the sheet name InvalidSheet. -/
theorem sheet_not_found_reported_witness :
    applyCore wbDemo "InvalidSheet" "A1" "A5" "=UNIQUE(A1:A10)"
      = Except.error (SpillError.sheetNotFound "InvalidSheet") ∧
    errorMessage (SpillError.sheetNotFound "InvalidSheet")
      = "Error: Sheet \x27" ++ "InvalidSheet" ++ "\x27 not found" :=
  ⟨(sheet_not_found_reported wbDemo "InvalidSheet" "A1" "A5" "=UNIQUE(A1:A10)"
      rfl).1, rfl⟩

/-- C8: a failing call reports the failure as an explicit returned error value
and performs no save: the stored file system is returned unchanged together
with the error message. -/
theorem apply_error_preserves_file (fs : FileSys) (path n s e f : String)
    (wb : Workbook) (err : SpillError)
    (hload : fs path = some wb)
    (herr : applyCore wb n s e f = Except.error err) :
    apply_spill_formula fs path n s e f = (fs, errorMessage err) := by
  unfold apply_spill_formula
  simp only [hload, herr]

/-- Demo file system holding the demo workbook at one path. -/
def fsDemo : FileSys := fun p => if p = "book.xlsx" then some wbDemo else none

/-- Witness for C8 at a missing-sheet failure. -/
theorem apply_error_preserves_file_witness :
    apply_spill_formula fsDemo "book.xlsx" "InvalidSheet" "A1" "A5" "=UNIQUE(A1:A10)"
      = (fsDemo, errorMessage (SpillError.sheetNotFound "InvalidSheet")) :=
  apply_error_preserves_file fsDemo "book.xlsx" "InvalidSheet" "A1" "A5"
    "=UNIQUE(A1:A10)" wbDemo (SpillError.sheetNotFound "InvalidSheet") rfl rfl

/-- C9: after every successful apply over a range, every cell of the
rectangle except the anchor is tagged as a spill member referencing the
anchor, and carries no formula text. -/
theorem spill_members_tag_anchor (wb : Workbook) (n s e f : String)
    (wb2 : Workbook) (msg : String) (a b c : Coordinate)
    (hok : applyCore wb n s e f = Except.ok (wb2, msg))
    (ha : parseReference s = some a) (hb : parseReference e = some b)
    (hc : inRect a b c) (hne : c ≠ a) :
    getCell wb2 n c = some (CellContent.spillMember a) ∧
    ∀ cc, getCell wb2 n c = some cc → hasFormulaText cc = false := by
  obtain ⟨sheet, a0, b0, rw0, hs, ha0, hb0, hr, hbf, hwb2, hmsg⟩ :=
    applyCore_ok_inv wb n s e f wb2 msg hok
  have haa : a0 = a := Option.some.inj (ha0.symm.trans ha)
  have hbb : b0 = b := Option.some.inj (hb0.symm.trans hb)
  rw [haa, hbb] at hwb2
  subst hwb2
  have hlk := lookupSheet_updateSheet wb n sheet
    (writeSpill sheet (CellRange.mk a b) rw0 (s ++ ":" ++ e)) hs
  have hcell : getCell
      (updateSheet wb n (writeSpill sheet (CellRange.mk a b) rw0 (s ++ ":" ++ e)))
      n c = some (CellContent.spillMember a) := by
    unfold getCell
    rw [hlk]
    show some (writeSpill sheet (CellRange.mk a b) rw0 (s ++ ":" ++ e) c) = _
    unfold writeSpill
    dsimp only
    rw [if_neg hne, if_pos hc]
  refine ⟨hcell, ?_⟩
  intro cc hcc
  rw [hcell] at hcc
  cases Option.some.inj hcc
  rfl

/-- Serialized demo workbook for the multi-cell FILTER apply over A17:C19. -/
def wbApplied : Workbook :=
  updateSheet wbDemo "Sheet"
    (writeSpill sheetEmpty (CellRange.mk (Coordinate.mk 17 1) (Coordinate.mk 19 3))
      (rewrite "=FILTER(A2:C8,B2:B8>2000)") ("A17" ++ ":" ++ "C19"))

/-- Witness for C9 at the interior cell B18 of the A17:C19 apply. -/
theorem spill_members_tag_anchor_witness :
    getCell wbApplied "Sheet" (Coordinate.mk 18 2)
      = some (CellContent.spillMember (Coordinate.mk 17 1)) ∧
    hasFormulaText (CellContent.spillMember (Coordinate.mk 17 1)) = false :=
  ⟨(spill_members_tag_anchor wbDemo "Sheet" "A17" "C19" "=FILTER(A2:C8,B2:B8>2000)"
      wbApplied
      ("Applied dynamic array formula \x27" ++ "=FILTER(A2:C8,B2:B8>2000)" ++
        "\x27 to range " ++ ("A17" ++ ":" ++ "C19"))
      (Coordinate.mk 17 1) (Coordinate.mk 19 3) (Coordinate.mk 18 2)
      rfl (by decide) (by decide) (by decide) (by decide)).1, rfl⟩

/-- C10: sheet existence is checked before cell-reference validation; with a
missing sheet and a malformed start reference the call reports SheetNotFound
and neither a reference nor a range error. -/
theorem sheet_check_precedes_reference_check (wb : Workbook) (n s e f : String)
    (hn : lookupSheet wb n = none) (hs : parseReference s = none) :
    applyCore wb n s e f = Except.error (SpillError.sheetNotFound n) ∧
    applyCore wb n s e f ≠ Except.error SpillError.invalidReference ∧
    applyCore wb n s e f ≠ Except.error SpillError.invalidRange := by
  have h1 : applyCore wb n s e f = Except.error (SpillError.sheetNotFound n) := by
    unfold applyCore
    rw [hn]
  refine ⟨h1, ?_, ?_⟩
  · simp [h1]
  · simp [h1]

/-- Witness for C10 at a missing sheet combined with a malformed reference. -/
theorem sheet_check_precedes_reference_check_witness :
    applyCore wbDemo "InvalidSheet" "NOTAREF" "A5" "=UNIQUE(A1:A10)"
      = Except.error (SpillError.sheetNotFound "InvalidSheet") ∧
    parseReference "NOTAREF" = none :=
  ⟨(sheet_check_precedes_reference_check wbDemo "InvalidSheet" "NOTAREF" "A5"
      "=UNIQUE(A1:A10)" rfl (by decide)).1, by decide⟩

end ExcelSpill
